import Mathlib

/-!
Verification of the tutoring-marketplace backend (`main.py`).

The document store holds two collections, `tutor` and `availability`, of
schema-flexible documents.  Documents are modelled as association lists from
field names to values, mirroring Python dictionaries returned by the store
driver (unique keys, insertion order preserved).  Dates are modelled as day
ordinals rendered by an injective `dateStr`; store-assigned object ids are
naturals rendered by an injective `objectIdStr`.
-/

/-- Field values occurring in the documents this backend reads and writes:
strings, nulls, store object ids, lists of strings (the `subjects` field) and
numbers (the `rating` field). -/
inductive Val where
  | vstr (s : String)
  | vnull
  | oid (n : Nat)
  | vlist (l : List String)
  | vnum (q : ℚ)
deriving DecidableEq

/-- A document: an association list of fields, modelling a Python dict. -/
abbrev Doc := List (String × Val)

/-- Python `d.get(k)`: the value at the first matching key, else `none`. -/
def dictGet : Doc → String → Option Val
  | [], _ => none
  | (k2, v) :: rest, k => if k2 = k then some v else dictGet rest k

/-- Python `d[k] = v`: replace in place if the key exists, else append
(Python dicts keep insertion order and append new keys at the end). -/
def dictSet : Doc → String → Val → Doc
  | [], k, v => [(k, v)]
  | (k2, w) :: rest, k, v =>
      if k2 = k then (k2, v) :: rest else (k2, w) :: dictSet rest k v

/-- Python `d.pop(k, None)`: remove the key from the document. -/
def dictPop : Doc → String → Doc
  | [], _ => []
  | (k2, v) :: rest, k =>
      if k2 = k then dictPop rest k else (k2, v) :: dictPop rest k

/-- Rendering of a store object id as a string, `str(ObjectId)` in Python.
The concrete hex form is irrelevant to the backend; only injectivity of the
rendering matters, so ids are rendered from their ordinal. -/
def objectIdStr (n : Nat) : String := "oid" ++ toString n

/-- Python `str` applied to the result of `d.get(k)`: `str(None)` is the
string `"None"`. -/
def strOfOpt : Option Val → String
  | none => "None"
  | some (Val.vstr s) => s
  | some Val.vnull => "None"
  | some (Val.oid n) => objectIdStr n
  | some (Val.vlist l) => toString l
  | some (Val.vnum q) => toString q

/-- The document store: the `tutor` and `availability` collections in their
store-native return order, plus the counter generating the next object id.
Modelled from the spec: the store capability of `database.py` (not under
`src/`) exposing `find`, `count`, `insert` and `listCollections`. -/
structure Store where
  tutor : List Doc
  avail : List Doc
  nextId : Nat
deriving DecidableEq

/-- A store with both collections empty. -/
def emptyStore : Store := ⟨[], [], 0⟩

/-- Errors an endpoint can surface: an explicit `HTTPException` with a status
code and detail string, or a pydantic validation error raised while building a
response model (which the framework turns into a generic server error). -/
inductive ApiError where
  | http (code : Nat) (detail : String)
  | validation
deriving DecidableEq

instance {ε α : Type} [DecidableEq ε] [DecidableEq α] :
    DecidableEq (Except ε α) := fun x y =>
  match x, y with
  | .ok a, .ok b =>
      if h : a = b then isTrue (by rw [h]) else isFalse (by simp [h])
  | .error e, .error f =>
      if h : e = f then isTrue (by rw [h]) else isFalse (by simp [h])
  | .ok _, .error _ => isFalse (by simp)
  | .error _, .ok _ => isFalse (by simp)

/-- The `TutorOut` response model of `main.py`: `id`, `name` and `subjects`
are required, `bio`, `location`, `photo_url` and `rating` are optional, and
`availabilities` is a list of shaped availability documents. -/
structure TutorOut where
  id : String
  name : String
  subjects : List String
  bio : Option String
  location : Option String
  photo_url : Option String
  rating : Option ℚ
  availabilities : List Doc
deriving DecidableEq

/-- Pydantic validation of a required `str` field: only a string value is
accepted; a missing field (Python `None`) or a non-string raises. -/
def reqStr : Option Val → Except ApiError String
  | some (Val.vstr s) => .ok s
  | _ => .error .validation

/-- Pydantic validation of an `Optional[str]` field: missing or null becomes
`none`, a string is kept, anything else raises. -/
def optStr : Option Val → Except ApiError (Option String)
  | none => .ok none
  | some Val.vnull => .ok none
  | some (Val.vstr s) => .ok (some s)
  | _ => .error .validation

/-- Pydantic validation of the `List[str]` subjects value after
`t.get("subjects", [])`: a missing field became `[]`, a list is kept,
anything else raises. -/
def listStr : Option Val → Except ApiError (List String)
  | none => .ok []
  | some (Val.vlist l) => .ok l
  | _ => .error .validation

/-- Pydantic validation of the `Optional[float]` rating field: missing or
null becomes `none`, a number is kept, anything else raises. -/
def optNum : Option Val → Except ApiError (Option ℚ)
  | none => .ok none
  | some Val.vnull => .ok none
  | some (Val.vnum q) => .ok (some q)
  | _ => .error .validation

/-- `str(t.get("_id"))` in `list_tutors`. -/
def tutorIdOf (t : Doc) : String := strOfOpt (dictGet t "_id")

/-- The in-place shaping of one availability dict in `list_tutors`:
`a["id"] = str(a.get("_id"))` followed by `a.pop("_id", None)`. -/
def shapeAvail (a : Doc) : Doc :=
  dictPop (dictSet a "id" (Val.vstr (strOfOpt (dictGet a "_id")))) "_id"

/-- `list(db["availability"].find({"tutor_id": tid}))` followed by the shaping
loop: the availability documents whose `tutor_id` field equals the given
string, in store-native order, each shaped by `shapeAvail`. -/
def availsFor (avail : List Doc) (tid : String) : List Doc :=
  (avail.filter
      (fun a => decide (dictGet a "tutor_id" = some (Val.vstr tid)))).map
    shapeAvail

/-- One iteration of the `list_tutors` loop: fetch and shape the tutor's
availabilities, then construct the `TutorOut` model, which validates the
tutor document's fields. -/
def viewOfTutor (avail : List Doc) (t : Doc) : Except ApiError TutorOut :=
  match reqStr (dictGet t "name"), listStr (dictGet t "subjects"),
      optStr (dictGet t "bio"), optStr (dictGet t "location"),
      optStr (dictGet t "photo_url"), optNum (dictGet t "rating") with
  | .ok nm, .ok subj, .ok bo, .ok loc, .ok ph, .ok rq =>
      .ok { id := tutorIdOf t, name := nm, subjects := subj, bio := bo,
            location := loc, photo_url := ph, rating := rq,
            availabilities := availsFor avail (tutorIdOf t) }
  | _, _, _, _, _, _ => .error .validation

/-- The `for t in tutors` loop of `list_tutors`: views are appended in store
order; the first validation error aborts the request. -/
def runViews (avail : List Doc) : List Doc → Except ApiError (List TutorOut)
  | [] => .ok []
  | t :: ts =>
      match viewOfTutor avail t with
      | .error e => .error e
      | .ok v =>
          match runViews avail ts with
          | .error e => .error e
          | .ok vs => .ok (v :: vs)

/-- `GET /api/tutors` (`list_tutors` in `main.py`): a 500 `HTTPException`
when the store handle is unset, otherwise the shaped views of all tutor
documents in store order.  `get_documents("tutor")` is modelled from the
spec as returning the whole `tutor` collection in store-native order
(`database.py` is not under `src/`). -/
def list_tutors : Option Store → Except ApiError (List TutorOut)
  | none => .error (.http 500 "Database not configured")
  | some s => runViews s.avail s.tutor

/-- Modelled from the spec: the `Tutor` record shape of `schemas.py` (not
under `src/`), carrying the fields the seed literals set. -/
structure TutorIn where
  name : String
  subjects : List String
  bio : Option String
  location : Option String
  photo_url : Option String
  rating : Option ℚ

/-- Modelled from the spec: the `Availability` record shape of `schemas.py`
(not under `src/`). -/
structure AvailabilityIn where
  tutor_id : String
  date : String
  time : String
  location : String
  notes : Option String

/-- An optional string rendered as a document field value. -/
def optV : Option String → Val
  | none => Val.vnull
  | some s => Val.vstr s

/-- The document a `Tutor` record is stored as. -/
def TutorIn.toDoc (t : TutorIn) : Doc :=
  [("name", Val.vstr t.name), ("subjects", Val.vlist t.subjects),
   ("bio", optV t.bio), ("location", optV t.location),
   ("photo_url", optV t.photo_url),
   ("rating", match t.rating with | none => Val.vnull | some q => Val.vnum q)]

/-- The document an `Availability` record is stored as. -/
def AvailabilityIn.toDoc (a : AvailabilityIn) : Doc :=
  [("tutor_id", Val.vstr a.tutor_id), ("date", Val.vstr a.date),
   ("time", Val.vstr a.time), ("location", Val.vstr a.location),
   ("notes", optV a.notes)]

/-- Modelled from the spec: `create_document("tutor", t)` of `database.py`
(not under `src/`): insert the document into the `tutor` collection with a
fresh store-assigned id and return the id's string form. -/
def insertTutor (s : Store) (fields : Doc) : Store × String :=
  ({ s with tutor := s.tutor ++ [("_id", Val.oid s.nextId) :: fields],
            nextId := s.nextId + 1 },
   objectIdStr s.nextId)

/-- Modelled from the spec: `create_document("availability", a)` of
`database.py` (not under `src/`). -/
def insertAvail (s : Store) (fields : Doc) : Store × String :=
  ({ s with avail := s.avail ++ [("_id", Val.oid s.nextId) :: fields],
            nextId := s.nextId + 1 },
   objectIdStr s.nextId)

/-- Rendering of a calendar date as its `YYYY-MM-DD` string; dates are
modelled as day ordinals, and only injectivity of the rendering matters. -/
def dateStr (n : Nat) : String := "day" ++ toString n

/-- The response of `POST /api/seed`: the message, the tutor count, and on
the success path also the slot count. -/
structure SeedResult where
  message : String
  tutors : Nat
  slots : Option Nat
deriving DecidableEq

/-- The hard-coded tutor roster of `seed_sample_data`, in insertion order. -/
def seedTutors : List TutorIn :=
  [{ name := "Alex Chen", subjects := ["Math", "Physics"],
     bio := some "STEM tutor with 7+ years helping high school and college students.",
     location := some "San Francisco, CA",
     photo_url := some "https://images.unsplash.com/photo-1544005313-94ddf0286df2?w=400",
     rating := some 4.8 },
   { name := "Priya Sharma", subjects := ["English", "Writing", "SAT"],
     bio := some "Former teacher specializing in test prep and essays.",
     location := some "New York, NY",
     photo_url := some "https://images.unsplash.com/photo-1524504388940-b1c1722653e1?w=400",
     rating := some 4.9 },
   { name := "Miguel Alvarez", subjects := ["Chemistry", "Biology"],
     bio := some "Patient explainer of tricky science concepts.",
     location := some "Austin, TX",
     photo_url := some "https://images.unsplash.com/photo-1547425260-76bcadfb4f2c?w=400",
     rating := some 4.7 }]

/-- The hard-coded availability slots of `seed_sample_data`, referencing the
captured tutor ids, with dates relative to the seed-time current date. -/
def seedSlots (ids : List String) (today : Nat) : List AvailabilityIn :=
  [{ tutor_id := ids.getD 0 "", date := dateStr (today + 1),
     time := "3:00 PM - 5:00 PM", location := "Downtown Library",
     notes := some "SAT practice" },
   { tutor_id := ids.getD 0 "", date := dateStr (today + 3),
     time := "10:00 AM - 12:00 PM", location := "Online", notes := none },
   { tutor_id := ids.getD 1 "", date := dateStr (today + 2),
     time := "4:00 PM - 6:00 PM", location := "Union Square",
     notes := some "Essay review" },
   { tutor_id := ids.getD 1 "", date := dateStr (today + 5),
     time := "1:00 PM - 2:30 PM", location := "Online", notes := none },
   { tutor_id := ids.getD 2 "", date := dateStr (today + 1),
     time := "9:00 AM - 11:00 AM", location := "Campus Cafe",
     notes := some "Lab concepts" }]

/-- The body of `seed_sample_data` after the handle check: count the tutor
collection; if non-empty report without writing, otherwise insert the three
tutors capturing their ids, then the five slots, and report the literal
counts. -/
def seedCore (s : Store) (today : Nat) : Store × SeedResult :=
  if s.tutor.length > 0 then
    (s, { message := "Data already exists", tutors := s.tutor.length,
          slots := none })
  else
    let ins := seedTutors.foldl
      (fun (p : Store × List String) t =>
        let q := insertTutor p.1 t.toDoc
        (q.1, p.2 ++ [q.2]))
      (s, [])
    let slots := seedSlots ins.2 today
    let s2 := slots.foldl (fun st sl => (insertAvail st sl.toDoc).1) ins.1
    (s2, { message := "Seeded sample tutors and availability",
           tutors := seedTutors.length, slots := some slots.length })

/-- `POST /api/seed` (`seed_sample_data` in `main.py`): a 500 `HTTPException`
with the store untouched when the handle is unset, otherwise run the seed
body at the seed-time current date. -/
def seed_sample_data (db : Option Store) (today : Nat) :
    Option Store × Except ApiError SeedResult :=
  match db with
  | none => (none, .error (.http 500 "Database not configured"))
  | some s =>
      let p := seedCore s today
      (some p.1, .ok p.2)

/-- Python string slicing `s[:50]`: the first fifty characters. -/
def truncTo (n : Nat) (s : String) : String := String.mk (s.data.take n)

/-- Python truthiness of `os.getenv(k)`: false for an unset variable and for
a variable set to the empty string. -/
def truthy : Option String → Bool
  | none => false
  | some s => !(s == "")

/-- The body of the `GET /test` response. -/
structure TestResponse where
  backend : String
  database : String
  database_url : Option String
  database_name : Option String
  connection_status : String
  collections : List String
deriving DecidableEq

/-- `GET /test` (`test_database` in `main.py`).  `dbName` is the store
driver's `db.name` attribute when it has one; `listC` is the outcome of
`db.list_collection_names()`, either the names or the raised exception's
message; `env` is the process environment.  The function is total: every
exception while probing the store is caught and embedded as a string, and
the endpoint always answers with status 200. -/
def test_database (db : Option Store) (dbName : Option String)
    (listC : Except String (List String)) (env : String → Option String) :
    Nat × TestResponse :=
  let r0 : TestResponse :=
    { backend := "✅ Running", database := "❌ Not Available",
      database_url := none, database_name := none,
      connection_status := "Not Connected", collections := [] }
  let r1 :=
    match db with
    | some _ =>
        let r2 :=
          { r0 with database := "✅ Available",
                    database_url := some "✅ Configured",
                    database_name := some
                      (match dbName with
                       | some n => n
                       | none => "✅ Connected"),
                    connection_status := "Connected" }
        match listC with
        | .ok cs =>
            { r2 with collections := cs.take 10,
                      database := "✅ Connected & Working" }
        | .error e =>
            { r2 with database := "⚠️  Connected but Error: " ++ truncTo 50 e }
    | none => { r0 with database := "⚠️  Available but not initialized" }
  (200,
   { r1 with
       database_url :=
         some (if truthy (env "DATABASE_URL") then "✅ Set" else "❌ Not Set"),
       database_name :=
         some (if truthy (env "DATABASE_NAME") then "✅ Set" else "❌ Not Set") })

/-! Dictionary lemmas. -/

theorem dictGet_pop_self (d : Doc) (k : String) :
    dictGet (dictPop d k) k = none := by
  induction d with
  | nil => rfl
  | cons p rest ih =>
      by_cases h : p.1 = k
      · simpa [dictPop, h] using ih
      · simpa [dictPop, h, dictGet] using ih

theorem dictGet_pop_ne (d : Doc) (k k2 : String) (h : k2 ≠ k) :
    dictGet (dictPop d k) k2 = dictGet d k2 := by
  have h4 : k ≠ k2 := fun hh => h hh.symm
  induction d with
  | nil => rfl
  | cons p rest ih =>
      by_cases h2 : p.1 = k
      · simpa [dictPop, h2, dictGet, h4] using ih
      · by_cases h3 : p.1 = k2
        · simp [dictPop, h2, dictGet, h3, h]
        · simpa [dictPop, h2, dictGet, h3] using ih

theorem dictGet_set_self (d : Doc) (k : String) (v : Val) :
    dictGet (dictSet d k v) k = some v := by
  induction d with
  | nil => simp [dictSet, dictGet]
  | cons p rest ih =>
      by_cases h : p.1 = k
      · simp [dictSet, h, dictGet]
      · simpa [dictSet, h, dictGet] using ih

/-! Shaping lemmas: the availability dict after shaping carries `id` (the
string form of the original `_id`) and no `_id`. -/

theorem shapeAvail_get_id (a : Doc) :
    dictGet (shapeAvail a) "id" =
      some (Val.vstr (strOfOpt (dictGet a "_id"))) := by
  unfold shapeAvail
  rw [dictGet_pop_ne _ _ _ (by decide)]
  exact dictGet_set_self ..

theorem shapeAvail_no_internal_id (a : Doc) :
    dictGet (shapeAvail a) "_id" = none :=
  dictGet_pop_self ..

/-! View construction lemmas. -/

theorem viewOfTutor_ok {avail : List Doc} {t : Doc} {v : TutorOut}
    (h : viewOfTutor avail t = .ok v) :
    v.id = tutorIdOf t ∧
    reqStr (dictGet t "name") = .ok v.name ∧
    listStr (dictGet t "subjects") = .ok v.subjects ∧
    optStr (dictGet t "bio") = .ok v.bio ∧
    optStr (dictGet t "location") = .ok v.location ∧
    optStr (dictGet t "photo_url") = .ok v.photo_url ∧
    optNum (dictGet t "rating") = .ok v.rating ∧
    v.availabilities = availsFor avail (tutorIdOf t) := by
  unfold viewOfTutor at h
  split at h
  · cases h
    simp_all
  · cases h

theorem viewOfTutor_error {avail : List Doc} {t : Doc} {e : ApiError}
    (h : viewOfTutor avail t = .error e) : e = .validation := by
  unfold viewOfTutor at h
  split at h
  · cases h
  · cases h
    rfl

theorem viewOfTutor_noName {avail : List Doc} {t : Doc}
    (h : dictGet t "name" = none) :
    viewOfTutor avail t = .error .validation := by
  unfold viewOfTutor
  split
  · next h1 _ _ _ _ _ =>
      rw [h] at h1
      cases h1
  · rfl

/-! Loop lemmas for `runViews`. -/

theorem runViews_ok {avail : List Doc} {ts : List Doc} {vs : List TutorOut}
    (h : runViews avail ts = .ok vs) :
    vs.length = ts.length ∧
    ∀ i (h1 : i < ts.length) (h2 : i < vs.length),
      viewOfTutor avail (ts.get ⟨i, h1⟩) = .ok (vs.get ⟨i, h2⟩) := by
  induction ts generalizing vs with
  | nil =>
      cases h
      exact ⟨rfl, fun i h1 => absurd h1 (Nat.not_lt_zero i)⟩
  | cons t rest ih =>
      unfold runViews at h
      cases hv : viewOfTutor avail t with
      | error e => rw [hv] at h; cases h
      | ok v =>
          rw [hv] at h
          cases hr : runViews avail rest with
          | error e => rw [hr] at h; cases h
          | ok vs0 =>
              rw [hr] at h
              cases h
              obtain ⟨hl, hg⟩ := ih hr
              refine ⟨by simpa using hl, fun i h1 h2 => ?_⟩
              cases i with
              | zero => simpa using hv
              | succ j =>
                  exact hg j (Nat.lt_of_succ_lt_succ h1)
                    (Nat.lt_of_succ_lt_succ h2)

theorem runViews_mem {avail : List Doc} {ts : List Doc} {vs : List TutorOut}
    {v : TutorOut} (h : runViews avail ts = .ok vs) (hm : v ∈ vs) :
    ∃ t ∈ ts, viewOfTutor avail t = .ok v := by
  induction ts generalizing vs with
  | nil =>
      cases h
      cases hm
  | cons t rest ih =>
      unfold runViews at h
      cases hv : viewOfTutor avail t with
      | error e => rw [hv] at h; cases h
      | ok w =>
          rw [hv] at h
          cases hr : runViews avail rest with
          | error e => rw [hr] at h; cases h
          | ok vs0 =>
              rw [hr] at h
              cases h
              rcases List.mem_cons.mp hm with h0 | h0
              · exact ⟨t, List.mem_cons_self .., by rw [h0]; exact hv⟩
              · obtain ⟨t2, ht2, hview⟩ := ih hr h0
                exact ⟨t2, List.mem_cons_of_mem _ ht2, hview⟩

theorem runViews_error_of_mem {avail : List Doc} {ts : List Doc} {t : Doc}
    (ht : t ∈ ts) (he : viewOfTutor avail t = .error .validation) :
    runViews avail ts = .error .validation := by
  induction ts with
  | nil => cases ht
  | cons t2 rest ih =>
      rcases List.mem_cons.mp ht with h0 | h0
      · unfold runViews
        rw [← h0, he]
      · unfold runViews
        cases hv : viewOfTutor avail t2 with
        | error e => rw [viewOfTutor_error hv]
        | ok v => rw [ih h0]

/-! Concrete inputs used by the witness theorems. -/

/-- A store with one tutor and two availability documents, one referencing
the tutor and one referencing a different id. -/
def storeA : Store :=
  ⟨[[("_id", Val.oid 7), ("name", Val.vstr "T")]],
   [[("_id", Val.oid 8), ("tutor_id", Val.vstr "oid7")],
    [("_id", Val.oid 9), ("tutor_id", Val.vstr "nope")]], 10⟩

/-- The shaped availability document `storeA`'s listing produces. -/
def availA0 : Doc := [("tutor_id", Val.vstr "oid7"), ("id", Val.vstr "oid8")]

/-- The single view object `storeA`'s listing produces. -/
def viewA0 : TutorOut :=
  { id := "oid7", name := "T", subjects := [], bio := none, location := none,
    photo_url := none, rating := none, availabilities := [availA0] }

/-- A store whose tutor collection is non-empty. -/
def storeB : Store := ⟨[[("name", Val.vstr "x")]], [], 1⟩

/-- C1: for every store state, a successful `GET /api/tutors` returns one
view object per tutor document, and the view for the i-th tutor carries
exactly the availability documents whose `tutor_id` field equals the string
form of that tutor's store identifier — no others — in the store's return
order, each shaped by `shapeAvail`. -/
theorem c1_join_correctness (s : Store) (views : List TutorOut)
    (h : list_tutors (some s) = .ok views) :
    views.length = s.tutor.length ∧
    ∀ i (h1 : i < s.tutor.length) (h2 : i < views.length),
      (views.get ⟨i, h2⟩).availabilities =
        (s.avail.filter (fun a =>
            decide (dictGet a "tutor_id" =
              some (Val.vstr (tutorIdOf (s.tutor.get ⟨i, h1⟩)))))).map
          shapeAvail := by
  have h0 : runViews s.avail s.tutor = .ok views := h
  obtain ⟨hl, hg⟩ := runViews_ok h0
  refine ⟨hl, fun i h1 h2 => ?_⟩
  have h3 := (viewOfTutor_ok (hg i h1 h2)).2.2.2.2.2.2.2
  simpa [availsFor] using h3

/-- Witness for C1 at a concrete store. -/
theorem c1_join_correctness_w :
    [viewA0].length = storeA.tutor.length ∧
    ∀ i (h1 : i < storeA.tutor.length) (h2 : i < [viewA0].length),
      ([viewA0].get ⟨i, h2⟩).availabilities =
        (storeA.avail.filter (fun a =>
            decide (dictGet a "tutor_id" =
              some (Val.vstr (tutorIdOf (storeA.tutor.get ⟨i, h1⟩)))))).map
          shapeAvail :=
  c1_join_correctness storeA [viewA0] (by decide)

/-- C2: the seed operation is idempotent: on any store whose tutor collection
is non-empty it performs no writes and reports the existing count with the
message `Data already exists`; and seeding twice from an empty store leaves
exactly 3 tutors and 5 availability records, the second call reporting
`Data already exists` with a tutor count of 3. -/
theorem c2_seed_idempotent (s : Store) (d d2 : Nat) (h : 0 < s.tutor.length) :
    seedCore s d =
      (s, { message := "Data already exists", tutors := s.tutor.length,
            slots := none }) ∧
    (seedCore (seedCore emptyStore d2).1 d2).1.tutor.length = 3 ∧
    (seedCore (seedCore emptyStore d2).1 d2).1.avail.length = 5 ∧
    seedCore (seedCore emptyStore d2).1 d2 =
      ((seedCore emptyStore d2).1,
       { message := "Data already exists", tutors := 3, slots := none }) := by
  refine ⟨?_, rfl, rfl, rfl⟩
  unfold seedCore
  rw [if_pos h]

/-- Witness for C2 at a concrete store and seed dates. -/
theorem c2_seed_idempotent_w :
    seedCore storeB 0 =
      (storeB, { message := "Data already exists",
                 tutors := storeB.tutor.length, slots := none }) ∧
    (seedCore (seedCore emptyStore 4).1 4).1.tutor.length = 3 ∧
    (seedCore (seedCore emptyStore 4).1 4).1.avail.length = 5 ∧
    seedCore (seedCore emptyStore 4).1 4 =
      ((seedCore emptyStore 4).1,
       { message := "Data already exists", tutors := 3, slots := none }) :=
  c2_seed_idempotent storeB 0 4 (by decide)

/-- C3 counterexample: a tutor document with no `name` field is rejected by
`GET /api/tutors` — the `TutorOut` model declares `name` as a required
string, so building the view raises a validation error (a server error)
instead of passing `name` through as null. -/
theorem c3_missing_name_cex :
    dictGet [("_id", Val.oid 1)] "name" = none ∧
    list_tutors (some ⟨[[("_id", Val.oid 1)]], [], 2⟩) =
      .error .validation := by decide

/-- C3 (amended): for every tutor document in the store that has no `name`
field, the listing operation rejects the record: constructing the `TutorOut`
view raises a validation error, so the request fails with a server error
rather than passing `name` through as null. -/
theorem c3_missing_name_rejected (s : Store) (t : Doc) (ht : t ∈ s.tutor)
    (h : dictGet t "name" = none) :
    list_tutors (some s) = .error .validation :=
  runViews_error_of_mem ht (viewOfTutor_noName h)

/-- Witness for the amended C3 at a concrete store. -/
theorem c3_missing_name_rejected_w :
    list_tutors (some ⟨[[("_id", Val.oid 3)]], [], 4⟩) = .error .validation :=
  c3_missing_name_rejected ⟨[[("_id", Val.oid 3)]], [], 4⟩
    [("_id", Val.oid 3)] (by decide) (by decide)

/-- C4: after a first seed call on an empty store, the response reports the
success message with 3 tutors and 5 slots, and the store holds exactly the
tutors Alex Chen, Priya Sharma and Miguel Alvarez with ratings 4.8, 4.9 and
4.7, whose matching availability documents are respectively 2, 2 and 1 with
dates at the seed-time current date plus offsets one and three, two and
five, and one days. -/
theorem c4_seed_content (d : Nat) :
    (seedCore emptyStore d).2 =
      { message := "Seeded sample tutors and availability", tutors := 3,
        slots := some 5 } ∧
    (seedCore emptyStore d).1.tutor.map (fun t => dictGet t "name") =
      [some (Val.vstr "Alex Chen"), some (Val.vstr "Priya Sharma"),
       some (Val.vstr "Miguel Alvarez")] ∧
    (seedCore emptyStore d).1.tutor.map (fun t => dictGet t "rating") =
      [some (Val.vnum 4.8), some (Val.vnum 4.9), some (Val.vnum 4.7)] ∧
    (seedCore emptyStore d).1.tutor.map tutorIdOf =
      [objectIdStr 0, objectIdStr 1, objectIdStr 2] ∧
    ((seedCore emptyStore d).1.avail.filter (fun a =>
        decide (dictGet a "tutor_id" = some (Val.vstr (objectIdStr 0))))).map
      (fun a => dictGet a "date") =
      [some (Val.vstr (dateStr (d + 1))), some (Val.vstr (dateStr (d + 3)))] ∧
    ((seedCore emptyStore d).1.avail.filter (fun a =>
        decide (dictGet a "tutor_id" = some (Val.vstr (objectIdStr 1))))).map
      (fun a => dictGet a "date") =
      [some (Val.vstr (dateStr (d + 2))), some (Val.vstr (dateStr (d + 5)))] ∧
    ((seedCore emptyStore d).1.avail.filter (fun a =>
        decide (dictGet a "tutor_id" = some (Val.vstr (objectIdStr 2))))).map
      (fun a => dictGet a "date") =
      [some (Val.vstr (dateStr (d + 1)))] :=
  ⟨rfl, rfl, rfl, rfl, rfl, rfl, rfl⟩

/-- C5: whenever the store handle is unset, `GET /api/tutors` and
`POST /api/seed` each fail with the 500 `HTTPException` before touching the
store (the seed endpoint returns the handle unchanged with no writes), while
`GET /test` still answers 200 with the store reported as not initialized and
not connected. -/
theorem c5_unavailable_store (d : Nat) (dbName : Option String)
    (listC : Except String (List String)) (env : String → Option String) :
    list_tutors none = .error (.http 500 "Database not configured") ∧
    seed_sample_data none d =
      (none, .error (.http 500 "Database not configured")) ∧
    (test_database none dbName listC env).1 = 200 ∧
    (test_database none dbName listC env).2.database =
      "⚠️  Available but not initialized" ∧
    (test_database none dbName listC env).2.connection_status =
      "Not Connected" :=
  ⟨rfl, rfl, rfl, rfl, rfl⟩

/-- C6: `GET /test` answers 200 for every store state, and when the
collection-listing probe raises, the exception message is embedded in the
`database` field truncated to at most fifty characters. -/
theorem c6_diagnostic_total (db : Option Store) (dbName : Option String)
    (listC : Except String (List String)) (env : String → Option String) :
    (test_database db dbName listC env).1 = 200 ∧
    (∀ st e, db = some st → listC = .error e →
      (test_database db dbName listC env).2.database =
        "⚠️  Connected but Error: " ++ truncTo 50 e ∧
      (truncTo 50 e).length ≤ 50) := by
  refine ⟨rfl, ?_⟩
  rintro st e rfl rfl
  refine ⟨rfl, ?_⟩
  show (String.mk (e.data.take 50)).length ≤ 50
  have h : (String.mk (e.data.take 50)).length = (e.data.take 50).length := rfl
  rw [h, List.length_take]
  exact Nat.min_le_left ..

/-- A process environment with no variables set. -/
def envC : String → Option String := fun _ => none

/-- Witness for C6 at a concrete store state whose probe raises. -/
theorem c6_diagnostic_total_w :
    (test_database (some emptyStore) none (.error "boom") envC).1 = 200 ∧
    ((test_database (some emptyStore) none (.error "boom") envC).2.database =
        "⚠️  Connected but Error: " ++ truncTo 50 "boom" ∧
      (truncTo 50 "boom").length ≤ 50) :=
  ⟨(c6_diagnostic_total (some emptyStore) none (.error "boom") envC).1,
   (c6_diagnostic_total (some emptyStore) none (.error "boom") envC).2
     emptyStore "boom" rfl rfl⟩

/-- C7: a tutor document with a name, no `subjects` field, no other optional
fields and no matching availability documents is listed without error, with
`subjects` and `availabilities` defaulting to empty sequences and `bio`,
`location`, `photo_url` and `rating` defaulting to null. -/
theorem c7_default_fields (avail : List Doc) (t : Doc) (nm : String) (n : Nat)
    (h1 : dictGet t "name" = some (Val.vstr nm))
    (h2 : dictGet t "subjects" = none)
    (h3 : dictGet t "bio" = none)
    (h4 : dictGet t "location" = none)
    (h5 : dictGet t "photo_url" = none)
    (h6 : dictGet t "rating" = none)
    (h7 : ∀ a ∈ avail, dictGet a "tutor_id" ≠ some (Val.vstr (tutorIdOf t))) :
    list_tutors (some ⟨[t], avail, n⟩) =
      .ok [{ id := tutorIdOf t, name := nm, subjects := [], bio := none,
             location := none, photo_url := none, rating := none,
             availabilities := [] }] := by
  have hav : availsFor avail (tutorIdOf t) = [] := by
    unfold availsFor
    have hf : avail.filter (fun a =>
        decide (dictGet a "tutor_id" = some (Val.vstr (tutorIdOf t)))) = [] :=
      List.filter_eq_nil_iff.mpr (fun a ha => by simp [h7 a ha])
    rw [hf]
    rfl
  have hview : viewOfTutor avail t =
      .ok { id := tutorIdOf t, name := nm, subjects := [], bio := none,
            location := none, photo_url := none, rating := none,
            availabilities := [] } := by
    unfold viewOfTutor
    rw [h1, h2, h3, h4, h5, h6]
    simp [reqStr, listStr, optStr, optNum, hav]
  show runViews avail [t] = _
  simp [runViews, hview]

/-- Witness for C7 at a concrete tutor document and store. -/
theorem c7_default_fields_w :
    list_tutors (some ⟨[[("_id", Val.oid 5), ("name", Val.vstr "N")]],
        [[("tutor_id", Val.vstr "other")]], 6⟩) =
      .ok [{ id := tutorIdOf [("_id", Val.oid 5), ("name", Val.vstr "N")],
             name := "N", subjects := [], bio := none, location := none,
             photo_url := none, rating := none, availabilities := [] }] :=
  c7_default_fields [[("tutor_id", Val.vstr "other")]]
    [("_id", Val.oid 5), ("name", Val.vstr "N")] "N" 6
    (by decide) (by decide) (by decide) (by decide) (by decide) (by decide)
    (by decide)

/-- C8: every availability record a successful listing returns carries an
`id` field equal to the string form of the underlying document's store
identifier, and the internal `_id` field has been removed. -/
theorem c8_avail_shaping (s : Store) (views : List TutorOut) (v : TutorOut)
    (a : Doc) (h : list_tutors (some s) = .ok views) (hv : v ∈ views)
    (ha : a ∈ v.availabilities) :
    dictGet a "_id" = none ∧
    ∃ orig ∈ s.avail, a = shapeAvail orig ∧
      dictGet a "id" = some (Val.vstr (strOfOpt (dictGet orig "_id"))) := by
  have h0 : runViews s.avail s.tutor = .ok views := h
  obtain ⟨t, ht, hview⟩ := runViews_mem h0 hv
  have h8 := (viewOfTutor_ok hview).2.2.2.2.2.2.2
  rw [h8] at ha
  unfold availsFor at ha
  obtain ⟨orig, horig, hshape⟩ := List.mem_map.mp ha
  have horig2 : orig ∈ s.avail := (List.mem_filter.mp horig).1
  subst hshape
  exact ⟨shapeAvail_no_internal_id orig,
    orig, horig2, rfl, shapeAvail_get_id orig⟩

/-- Witness for C8 at a concrete store and availability record. -/
theorem c8_avail_shaping_w :
    dictGet availA0 "_id" = none ∧
    ∃ orig ∈ storeA.avail, availA0 = shapeAvail orig ∧
      dictGet availA0 "id" = some (Val.vstr (strOfOpt (dictGet orig "_id"))) :=
  c8_avail_shaping storeA [viewA0] viewA0 availA0
    (by decide) (by decide) (by decide)

/-- A process environment whose `DATABASE_URL` is set to the empty string. -/
def envA : String → Option String := fun k =>
  if k = "DATABASE_URL" then some "" else
  if k = "DATABASE_NAME" then some "n" else none

/-- A process environment whose `DATABASE_URL` is set to a non-empty value. -/
def envB : String → Option String := fun k =>
  if k = "DATABASE_URL" then some "u" else
  if k = "DATABASE_NAME" then some "n" else none

/-- Another process environment with both variables set non-empty. -/
def envD : String → Option String := fun k =>
  if k = "DATABASE_URL" then some "zzz" else
  if k = "DATABASE_NAME" then some "m" else none

/-- C9 counterexample: two runs in which `DATABASE_URL` is set in both — to
the empty string in one and to a non-empty string in the other — and that
agree on `DATABASE_NAME`, produce different `database_url` fields: the
code's truthiness test distinguishes an empty value from a non-empty one,
so the field does not depend only on whether the variable is set. -/
theorem c9_env_value_cex :
    envA "DATABASE_URL" = some "" ∧ envB "DATABASE_URL" = some "u" ∧
    envA "DATABASE_NAME" = envB "DATABASE_NAME" ∧
    (test_database none none (.ok []) envA).2.database_url ≠
      (test_database none none (.ok []) envB).2.database_url := by decide

/-- C9 (amended): the `database_url` and `database_name` fields of the
`GET /test` response depend only on whether `DATABASE_URL` and
`DATABASE_NAME` are set to non-empty strings — never on the particular
values, and not on the store state either: any two runs whose variables
agree on that presence test produce identical fields. -/
theorem c9_env_presence_only (db1 db2 : Option Store) (n1 n2 : Option String)
    (l1 l2 : Except String (List String))
    (env1 env2 : String → Option String)
    (hu : truthy (env1 "DATABASE_URL") = truthy (env2 "DATABASE_URL"))
    (hn : truthy (env1 "DATABASE_NAME") = truthy (env2 "DATABASE_NAME")) :
    (test_database db1 n1 l1 env1).2.database_url =
      (test_database db2 n2 l2 env2).2.database_url ∧
    (test_database db1 n1 l1 env1).2.database_name =
      (test_database db2 n2 l2 env2).2.database_name := by
  constructor
  · show some (if truthy (env1 "DATABASE_URL") then "✅ Set" else "❌ Not Set") =
      some (if truthy (env2 "DATABASE_URL") then "✅ Set" else "❌ Not Set")
    rw [hu]
  · show some (if truthy (env1 "DATABASE_NAME") then "✅ Set" else "❌ Not Set") =
      some (if truthy (env2 "DATABASE_NAME") then "✅ Set" else "❌ Not Set")
    rw [hn]

/-- Witness for the amended C9 at two concrete runs differing in store state
and variable values but agreeing on presence. -/
theorem c9_env_presence_only_w :
    (test_database none none (.ok []) envB).2.database_url =
      (test_database (some emptyStore) (some "x") (.error "e") envD).2.database_url ∧
    (test_database none none (.ok []) envB).2.database_name =
      (test_database (some emptyStore) (some "x") (.error "e") envD).2.database_name :=
  c9_env_presence_only none (some emptyStore) none (some "x") (.ok [])
    (.error "e") envB envD (by decide) (by decide)

/-- C10: the seed guard inspects only the tutor collection: on any store
whose tutor collection is empty, seeding proceeds, inserting 3 tutors and 5
availability slots on top of whatever the availability collection already
holds — so pre-existing availability records do not prevent seeding and the
availability collection can exceed 5 documents. -/
theorem c10_guard_only_tutors (s : Store) (d : Nat) (h : s.tutor = []) :
    (seedCore s d).1.tutor.length = 3 ∧
    (seedCore s d).1.avail.length = s.avail.length + 5 ∧
    (seedCore s d).2.message = "Seeded sample tutors and availability" ∧
    (0 < s.avail.length → 5 < (seedCore s d).1.avail.length) := by
  obtain ⟨tut, av, nid⟩ := s
  simp only at h
  subst h
  have hlen : (seedCore ⟨[], av, nid⟩ d).1.avail.length = av.length + 5 := by
    simp [seedCore, seedTutors, seedSlots, insertTutor, insertAvail,
          TutorIn.toDoc, AvailabilityIn.toDoc]
  refine ⟨?_, hlen, ?_, ?_⟩
  · simp [seedCore, seedTutors, seedSlots, insertTutor, insertAvail,
          TutorIn.toDoc, AvailabilityIn.toDoc]
  · simp [seedCore, seedTutors, seedSlots, insertTutor, insertAvail,
          TutorIn.toDoc, AvailabilityIn.toDoc]
  · intro hpos
    have hpos2 : 0 < av.length := hpos
    rw [hlen]
    omega

/-- Witness for C10 at a concrete store with a pre-existing availability
record: seeding leaves six availability documents. -/
theorem c10_guard_only_tutors_w :
    (seedCore ⟨[], [[("x", Val.vnull)]], 0⟩ 2).1.tutor.length = 3 ∧
    (seedCore ⟨[], [[("x", Val.vnull)]], 0⟩ 2).1.avail.length =
      (Store.mk [] [[("x", Val.vnull)]] 0).avail.length + 5 ∧
    (seedCore ⟨[], [[("x", Val.vnull)]], 0⟩ 2).2.message =
      "Seeded sample tutors and availability" ∧
    (0 < (Store.mk [] [[("x", Val.vnull)]] 0).avail.length →
      5 < (seedCore ⟨[], [[("x", Val.vnull)]], 0⟩ 2).1.avail.length) :=
  c10_guard_only_tutors ⟨[], [[("x", Val.vnull)]], 0⟩ 2 rfl
